import Mathlib

/-!
Verification of the type-mapping, result-materialization and destination-writer
layer of the dune-sync repository.

The Python modules `src/sources/dune.py`, `src/destinations/postgres.py`,
`src/destinations/dune.py` and `src/interfaces.py` are embedded shallowly:
pure helpers become Lean functions, the mutable module-global type registry
`DUNE_TO_PG` is passed and returned explicitly, database and Dune-API side
effects are modelled by explicit state values (`PgDb`, `DuneClientEnv`),
Python exceptions become `Except PyError`, and log calls are collected in
`List LogEvent` results.
-/

/-- Wire-format / cell values as they appear in a pandas DataFrame built from
the JSON rows of a Dune result: `null` is Python `None`, `nan` is the float
NaN pandas inserts for missing keys, `bytes` is a Python `bytes` object
(one `Nat` per byte), and `arr`/`obj` are nested JSON structures. -/
inductive Value where
  | null
  | nan
  | bool (b : Bool)
  | int (n : Int)
  | str (s : String)
  | bytes (bs : List Nat)
  | arr (vs : List Value)
  | obj (kvs : List (String × Value))

/-- The Python exception kinds the embedded code can raise or catch
(`DuneError` comes from the dune_client library). -/
inductive PyError where
  | valueError (msg : String)
  | keyError (msg : String)
  | typeError (msg : String)
  | runtimeError (msg : String)
  | duneError (msg : String)
  | attributeError (msg : String)
  deriving DecidableEq

/-- A structured log line at one of the levels used by the sources/destinations. -/
inductive LogEvent where
  | error (msg : String)
  | warning (msg : String)
  | info (msg : String)
  | debug (msg : String)
  deriving DecidableEq

mutual

/-- Structural equality of cell values (Python `==` on the JSON-ish values). -/
def valueBeq : Value → Value → Bool
  | .null, .null => true
  | .nan, .nan => true
  | .bool a, .bool b => a == b
  | .int a, .int b => a == b
  | .str a, .str b => a == b
  | .bytes a, .bytes b => a == b
  | .arr a, .arr b => valueListBeq a b
  | .obj a, .obj b => valuePairsBeq a b
  | _, _ => false

def valueListBeq : List Value → List Value → Bool
  | [], [] => true
  | a :: as, b :: bs => valueBeq a b && valueListBeq as bs
  | _, _ => false

def valuePairsBeq : List (String × Value) → List (String × Value) → Bool
  | [], [] => true
  | (k, a) :: as, (l, b) :: bs => k == l && valueBeq a b && valuePairsBeq as bs
  | _, _ => false

end

instance : BEq Value := ⟨valueBeq⟩

/-- Python `pd.notnull`: false exactly on `None` and NaN. -/
def pdNotNull : Value → Bool
  | .null => false
  | .nan => false
  | _ => true

mutual

/-- Python `json.dumps` with default arguments: `None` becomes the text
`null`, NaN becomes `NaN` (default `allow_nan=True`), `bytes` raises
`TypeError`, containers use the default separators. -/
def jsonDumps : Value → Except PyError String
  | .null => .ok "null"
  | .nan => .ok "NaN"
  | .bool true => .ok "true"
  | .bool false => .ok "false"
  | .int n => .ok (toString n)
  | .str s => .ok ("\"" ++ s ++ "\"")
  | .bytes _ => .error (.typeError "Object of type bytes is not JSON serializable")
  | .arr vs =>
    match jsonDumpsList vs with
    | .error e => .error e
    | .ok parts => .ok ("[" ++ String.intercalate (", ") parts ++ "]")
  | .obj kvs =>
    match jsonDumpsPairs kvs with
    | .error e => .error e
    | .ok parts => .ok ("\x7b" ++ String.intercalate (", ") parts ++ "\x7d")

def jsonDumpsList : List Value → Except PyError (List String)
  | [] => .ok []
  | v :: vs =>
    match jsonDumps v with
    | .error e => .error e
    | .ok s =>
      match jsonDumpsList vs with
      | .error e => .error e
      | .ok rest => .ok (s :: rest)

def jsonDumpsPairs : List (String × Value) → Except PyError (List String)
  | [] => .ok []
  | (k, v) :: kvs =>
    match jsonDumps v with
    | .error e => .error e
    | .ok s =>
      match jsonDumpsPairs kvs with
      | .error e => .error e
      | .ok rest => .ok (("\"" ++ k ++ "\": " ++ s) :: rest)

end

/-- Numeric value of an ASCII hex digit, if the character is one. -/
def hexDigitVal (c : Char) : Option Nat :=
  if 48 ≤ c.toNat ∧ c.toNat ≤ 57 then some (c.toNat - 48)
  else if 97 ≤ c.toNat ∧ c.toNat ≤ 102 then some (c.toNat - 87)
  else if 65 ≤ c.toNat ∧ c.toNat ≤ 70 then some (c.toNat - 55)
  else none

/-- Core of Python `bytes.fromhex`: pairs of hex digits, with spaces allowed
between (not inside) pairs; anything else raises `ValueError`. -/
def fromhexGo : List Char → Except PyError (List Nat)
  | [] => .ok []
  | c :: rest =>
    if c.toNat == 32 then fromhexGo rest
    else
      match hexDigitVal c, rest with
      | some h, c2 :: rest2 =>
        match hexDigitVal c2 with
        | some l =>
          match fromhexGo rest2 with
          | .error e => .error e
          | .ok bs => .ok ((16 * h + l) :: bs)
        | none => .error (.valueError "non-hexadecimal number found in fromhex() arg")
      | _, _ => .error (.valueError "non-hexadecimal number found in fromhex() arg")

/-- Python `bytes.fromhex`. -/
def bytes_fromhex (s : String) : Except PyError (List Nat) :=
  fromhexGo s.toList

/-- The SQLAlchemy / Postgres column types used in `src/sources/dune.py`.
`NUMERIC none` is the bare `NUMERIC` class (used for `uint256`),
`NUMERIC (some (p, s))` is a `NUMERIC(p, s)` instance. -/
inductive PgType where
  | BIGINT
  | INTEGER
  | BYTEA
  | DATE
  | BOOLEAN
  | VARCHAR
  | DOUBLE_PRECISION
  | TIMESTAMP
  | JSONB
  | NUMERIC (params : Option (Nat × Nat))
  deriving DecidableEq

/-- A Python `dict[str, α]` as an association list in insertion order. -/
abbrev PyDict (α : Type) := List (String × α)

/-- `d.get(k)` / `d[k]` lookup. -/
def dictGet {α : Type} (d : PyDict α) (k : String) : Option α :=
  (d.find? (fun p => p.1 == k)).map (fun p => p.2)

/-- `d[k] = v`: overwrite in place if the key exists, else append. -/
def dictInsert {α : Type} (d : PyDict α) (k : String) (v : α) : PyDict α :=
  if (d.find? (fun p => p.1 == k)).isSome then
    d.map (fun p => if p.1 == k then (k, v) else p)
  else d ++ [(k, v)]

/-- The mutable module-global registry from Dune type strings to Postgres
column types; this is its initial value in `src/sources/dune.py`. -/
abbrev Registry := PyDict PgType

def DUNE_TO_PG : Registry :=
  [("bigint", .BIGINT),
   ("integer", .INTEGER),
   ("varbinary", .BYTEA),
   ("date", .DATE),
   ("boolean", .BOOLEAN),
   ("varchar", .VARCHAR),
   ("double", .DOUBLE_PRECISION),
   ("real", .DOUBLE_PRECISION),
   ("timestamp with time zone", .TIMESTAMP),
   ("uint256", .NUMERIC none)]

/-- Numeric value of a list of decimal digits (Python `int` on a `\d+` group). -/
def digitsToNat (ds : List Char) : Nat :=
  ds.foldl (fun n c => 10 * n + (c.toNat - 48)) 0

/-- Python `\s` on the characters that occur in type strings
(space, tab, newline, carriage return, vertical tab, form feed). -/
def isPySpace (c : Char) : Bool :=
  c.toNat == 32 || c.toNat == 9 || c.toNat == 10 || c.toNat == 13 ||
  c.toNat == 11 || c.toNat == 12

/-- `_parse_decimal_type`: `re.match(r"decimal\((\d+),\s*(\d+)\)", s)` (an
anchored prefix match, trailing characters permitted; ASCII digits modelled)
followed by `int` on both groups; `none` models the `(None, None)` return. -/
def parse_decimal_type (s : String) : Option (Nat × Nat) :=
  let cs := s.toList
  if cs.take 8 = ("decimal(").toList then
    let r0 := cs.drop 8
    let d1 := r0.takeWhile Char.isDigit
    let r1 := r0.dropWhile Char.isDigit
    if d1.isEmpty then none
    else
      match r1 with
      | c :: r2 =>
        if c.toNat == 44 then
          let r3 := r2.dropWhile isPySpace
          let d2 := r3.takeWhile Char.isDigit
          let r4 := r3.dropWhile Char.isDigit
          if d2.isEmpty then none
          else
            match r4 with
            | c2 :: _ => if c2.toNat == 41 then some (digitsToNat d1, digitsToNat d2) else none
            | [] => none
        else none
      | [] => none
  else none

/-- `_parse_varchar_type`: `re.match(r"varchar\((\d+)\)", s)` followed by `int`. -/
def parse_varchar_type (s : String) : Option Nat :=
  let cs := s.toList
  if cs.take 8 = ("varchar(").toList then
    let r0 := cs.drop 8
    let d1 := r0.takeWhile Char.isDigit
    let r1 := r0.dropWhile Char.isDigit
    if d1.isEmpty then none
    else
      match r1 with
      | c :: _ => if c.toNat == 41 then some (digitsToNat d1) else none
      | [] => none
  else none

/-- `_handle_column_types(name, d_type)` of `src/sources/dune.py`, with the
module-global `DUNE_TO_PG` registry threaded explicitly.  Returns the
resolved Postgres type, the varbinary / unknown column-name lists, the
updated registry and the emitted log lines.  Note the faithful rendering of
`if precision and scale:` — Python truthiness, under which a parsed value of
`0` counts as a parse failure. -/
def handle_column_types (reg : Registry) (name d_type : String) :
    PgType × List String × List String × Registry × List LogEvent :=
  -- Handle varchar types (`_parse_varchar_type` re-runs the guard's regex,
  -- so its `None` branch — the error log below — is unreachable).
  let (reg1, logs1) :=
    if (parse_varchar_type d_type).isSome then
      match parse_varchar_type d_type with
      | some _length => (dictInsert reg d_type PgType.VARCHAR, ([] : List LogEvent))
      | none =>
        (reg, [LogEvent.error ("Failed to parse precision and scale from Dune result: " ++ name)])
    else (reg, [])
  -- Handle decimal types.
  let (reg2, logs2) :=
    if (parse_decimal_type d_type).isSome then
      match parse_decimal_type d_type with
      | some (precision, scale) =>
        if precision != 0 && scale != 0 then
          (dictInsert reg1 d_type (PgType.NUMERIC (some (precision, scale))),
           ([] : List LogEvent))
        else
          (reg1, [LogEvent.error ("Failed to parse precision and scale from Dune result: " ++ name)])
      | none =>
        (reg1, [LogEvent.error ("Failed to parse precision and scale from Dune result: " ++ name)])
    else (reg1, [])
  -- Get the PostgreSQL type, handle unknown types.
  let (pg_type, unknown_cols, logs3) :=
    match dictGet reg2 d_type with
    | none =>
      (PgType.JSONB, [name],
       [LogEvent.warning ("Unknown column: " ++ d_type ++ " - treating as JSONB")])
    | some t => (t, [], [])
  -- Track varbinary columns.
  let varbinary_cols := if d_type == "varbinary" then [name] else []
  (pg_type, varbinary_cols, unknown_cols, reg2, logs1 ++ logs2 ++ logs3)

/-- A pandas DataFrame: named columns and row-major cells (each row list is
parallel to `cols`). -/
structure DataFrame where
  cols : List String
  rows : List (List Value)

/-- Pandas `df.empty`: true when either axis has length zero. -/
def DataFrame.pdEmpty (df : DataFrame) : Bool :=
  df.rows.isEmpty || df.cols.isEmpty

/-- `pd.DataFrame(rows)` from a list of row dicts: columns are the keys in
order of first appearance, missing keys become NaN. -/
def pdDataFrame (rowDicts : List (List (String × Value))) : DataFrame :=
  let cols := rowDicts.foldl
    (fun acc r => r.foldl (fun acc p => if acc.contains p.1 then acc else acc ++ [p.1]) acc) []
  { cols := cols,
    rows := rowDicts.map (fun r => cols.map (fun c => (dictGet r c).getD Value.nan)) }

/-- Transform the cell at column index `j` of every row, propagating the
first raised exception. -/
def mapRowsAt (j : Nat) (f : Value → Except PyError Value) :
    List (List Value) → Except PyError (List (List Value))
  | [] => .ok []
  | r :: rs =>
    match f (r.getD j Value.nan) with
    | .error e => .error e
    | .ok v =>
      match mapRowsAt j f rs with
      | .error e => .error e
      | .ok rest => .ok (r.set j v :: rest)

/-- `df[col] = df[col].apply(f)`: selecting a column that is not present
raises `KeyError` (as on the empty DataFrame built from zero rows). -/
def applyColumn (df : DataFrame) (col : String) (f : Value → Except PyError Value) :
    Except PyError DataFrame :=
  match df.cols.findIdx? (fun c => c == col) with
  | none => .error (.keyError col)
  | some j =>
    match mapRowsAt j f df.rows with
    | .error e => .error e
    | .ok rows2 => .ok { cols := df.cols, rows := rows2 }

/-- The per-cell lambda of `_reformat_varbinary_columns`:
`bytes.fromhex(x[2:]) if pd.notnull(x) else x`.  A non-null non-string cell
makes `fromhex` raise `TypeError` (its argument must be a string). -/
def varbinaryCell (v : Value) : Except PyError Value :=
  if pdNotNull v then
    match v with
    | .str s =>
      match bytes_fromhex (s.drop 2) with
      | .error e => .error e
      | .ok bs => .ok (.bytes bs)
    | _ => .error (.typeError "fromhex() argument must be str")
  else .ok v

/-- `_reformat_varbinary_columns(df, varbinary_columns)`. -/
def reformat_varbinary_columns (df : DataFrame) : List String → Except PyError DataFrame
  | [] => .ok df
  | col :: cols =>
    match applyColumn df col varbinaryCell with
    | .error e => .error e
    | .ok df2 => reformat_varbinary_columns df2 cols

/-- The per-cell function of `_reformat_unknown_columns`: `json.dumps`
applied to every cell (nulls included), the result stored as a string cell. -/
def jsonDumpsCell (v : Value) : Except PyError Value :=
  match jsonDumps v with
  | .error e => .error e
  | .ok s => .ok (.str s)

/-- `_reformat_unknown_columns(df, unknown_columns)`. -/
def reformat_unknown_columns (df : DataFrame) : List String → Except PyError DataFrame
  | [] => .ok df
  | col :: cols =>
    match applyColumn df col jsonDumpsCell with
    | .error e => .error e
    | .ok df2 => reformat_unknown_columns df2 cols

/-- `TypedDataFrame` of `src/interfaces.py`: a DataFrame plus the
column-name → column-type mapping (destructured as a pair by the writer,
matching the tuple alias of `src/sync_types.py`). -/
structure TypedDataFrame where
  dataframe : DataFrame
  types : PyDict PgType

/-- `len(data)`: the number of rows. -/
def TypedDataFrame.len (d : TypedDataFrame) : Nat :=
  d.dataframe.rows.length

/-- `TypedDataFrame.is_empty`. -/
def TypedDataFrame.isEmptyTdf (d : TypedDataFrame) : Bool :=
  d.dataframe.pdEmpty

/-- The column-name / column-type manifest of a Dune execution result. -/
structure ResultMetadata where
  column_names : List String
  column_types : List String

/-- A Dune `ExecutionResult`: metadata plus JSON row dicts. -/
structure ExecutionResult where
  metadata : ResultMetadata
  rows : List (List (String × Value))

/-- `dune_result_to_df(result)` of `src/sources/dune.py`, with the global
registry threaded.  `zip(..., strict=False)` truncates to the shorter
metadata list. -/
def dune_result_to_df (reg : Registry) (result : ExecutionResult) :
    Except PyError (TypedDataFrame × Registry × List LogEvent) :=
  let metadata := result.metadata
  let step := fun (acc : PyDict PgType × List String × List String × Registry × List LogEvent)
      (p : String × String) =>
    let (dtypes, vcols, ucols, reg, logs) := acc
    let (pg, v, u, reg2, l) := handle_column_types reg p.1 p.2
    (dictInsert dtypes p.1 pg, vcols ++ v, ucols ++ u, reg2, logs ++ l)
  let folded := (metadata.column_names.zip metadata.column_types).foldl step ([], [], [], reg, [])
  let (dtypes, vcols, ucols, reg2, logs) := folded
  let df := pdDataFrame result.rows
  match reformat_varbinary_columns df vcols with
  | .error e => .error e
  | .ok df2 =>
    match reformat_unknown_columns df2 ucols with
    | .error e => .error e
    | .ok df3 => .ok (⟨df3, dtypes⟩, reg2, logs)

/-- `DuneSource.fetch`: the polled execution's `response.result` is either
absent (`None`) — `raise ValueError("Query execution failed!")` — or handed
to the materializer. -/
def DuneSource.fetch (reg : Registry) (result? : Option ExecutionResult) :
    Except PyError (TypedDataFrame × Registry × List LogEvent) :=
  match result? with
  | none => .error (.valueError "Query execution failed!")
  | some result => dune_result_to_df reg result

/-- The four conflict policies of `src/destinations/postgres.py`
(`TableExistsPolicy`). -/
inductive TableExistsPolicy where
  | append
  | replace
  | upsert
  | insert_ignore
  deriving DecidableEq

/-- The `on_conflict` argument of `PostgresDestination.insert`
(`Literal["update", "nothing"]`). -/
inductive OnConflict where
  | update
  | nothing
  deriving DecidableEq

/-- A destination table as the writer observes it: the column types it was
created with, its unique constraints (each a column-name set, listed), and
its rows as record dicts. -/
structure PgTable where
  types : PyDict PgType
  unique_constraints : List (List String)
  rows : List (List (String × Value))

/-- The observable state of the destination Postgres database: the existing
schemas (as `inspector.get_schema_names()` reports them) and the existing
tables keyed by (schema, table name). -/
structure PgDb where
  schemas : List String
  tables : List ((String × String) × PgTable)

def dbGetTable (db : PgDb) (schema table : String) : Option PgTable :=
  (db.tables.find? (fun p => p.1.1 == schema && p.1.2 == table)).map (fun p => p.2)

def dbSetTable (db : PgDb) (schema table : String) (t : PgTable) : PgDb :=
  if (db.tables.find? (fun p => p.1.1 == schema && p.1.2 == table)).isSome then
    { db with tables := (db.tables.map
        (fun p => if p.1.1 == schema && p.1.2 == table then ((schema, table), t) else p)) }
  else { db with tables := db.tables ++ [((schema, table), t)] }

/-- The configured state of a `PostgresDestination` after `__init__` ran. -/
structure PostgresDestination where
  schema : String
  table_name : String
  if_exists : TableExistsPolicy
  index_columns : List String
  deriving DecidableEq

/-- Split a character list at its first `.` (code point 46), if any. -/
def splitDot : List Char → Option (List Char × List Char)
  | [] => none
  | c :: rest =>
    if c.toNat == 46 then some ([], rest)
    else
      match splitDot rest with
      | none => none
      | some (a, b) => some (c :: a, b)

/-- The `__init__` schema split: `if "." in table_name: schema, table_name =
table_name.split(".", 1)`, else schema stays `"public"`. -/
def splitTableName (table_name : String) : String × String :=
  match splitDot table_name.toList with
  | none => ("public", table_name)
  | some (a, b) => (String.mk a, String.mk b)

/-- `PostgresDestination.validate`: the schema must exist, and the `upsert`
policy must come with index columns.  Returns the boolean together with the
error logs emitted. -/
def PostgresDestination.validate (db : PgDb) (dest : PostgresDestination) :
    Bool × List LogEvent :=
  if !(db.schemas.contains dest.schema) then
    (false,
     [LogEvent.error ("Schema \x27" ++ dest.schema ++ "\x27 does not exist. Available schemas: "
       ++ String.intercalate (", ") db.schemas
       ++ "\nTo create this schema, run the following SQL command:\nCREATE SCHEMA "
       ++ dest.schema ++ ";")])
  else if dest.if_exists == TableExistsPolicy.upsert && dest.index_columns.isEmpty then
    (false, [LogEvent.error "Upsert without index columns."])
  else (true, [])

/-- `PostgresDestination.__init__` followed by `Validate.__init__`
(`src/interfaces.py`), which raises `ValueError` when `validate()` is
false.  `index_columns = None` defaults to the empty list. -/
def mkPostgresDestination (db : PgDb) (table_name : String)
    (if_exists : TableExistsPolicy) (index_columns : Option (List String)) :
    Except PyError PostgresDestination :=
  let ic := index_columns.getD []
  let dest : PostgresDestination :=
    { schema := (splitTableName table_name).1, table_name := (splitTableName table_name).2,
      if_exists := if_exists, index_columns := ic }
  if (PostgresDestination.validate db dest).1 then .ok dest
  else .error (.valueError "Config for PostgresDestination is invalid. See ERROR log for details.")

/-- Python `set(a) == set(b)` on string lists. -/
def listSetEq (a b : List String) : Bool :=
  a.all (fun x => b.contains x) && b.all (fun x => a.contains x)

/-- `PostgresDestination.table_exists`. -/
def PostgresDestination.table_exists (dest : PostgresDestination) (db : PgDb) : Bool :=
  (dbGetTable db dest.schema dest.table_name).isSome

/-- The remediation DDL statement `validate_unique_constraints` logs. -/
def constraintSuggestion (dest : PostgresDestination) : String :=
  "ALTER TABLE " ++ dest.table_name ++ " ADD CONSTRAINT "
  ++ dest.table_name ++ "_" ++ String.intercalate ("_") dest.index_columns ++ "_unique"
  ++ " UNIQUE (" ++ String.intercalate (", ") dest.index_columns ++ ");"

/-- The full error message `validate_unique_constraints` logs. -/
def uniqueConstraintMessage (dest : PostgresDestination) : String :=
  "The ON CONFLICT clause requires a unique or exclusion constraint on the column(s): "
  ++ String.intercalate (", ") dest.index_columns
  ++ ". Please ensure the table \x27" ++ dest.table_name ++ "\x27 has the necessary constraint. "
  ++ "To fix this, you can run the following SQL command:\n" ++ constraintSuggestion dest

/-- `PostgresDestination.validate_unique_constraints`: succeeds when some
unique constraint's column set equals the configured index columns exactly,
otherwise logs the remediation message and raises `ValueError`.  (Called by
`insert` only when the table exists.) -/
def PostgresDestination.validate_unique_constraints (dest : PostgresDestination)
    (db : PgDb) : Except PyError Unit × List LogEvent :=
  let constraints := ((dbGetTable db dest.schema dest.table_name).map
    (fun t => t.unique_constraints)).getD []
  if constraints.any (fun c => listSetEq dest.index_columns c) then (.ok (), [])
  else
    (.error (.valueError "No unique or exclusion constraint found. See error logs."),
     [LogEvent.error (uniqueConstraintMessage dest)])

/-- `df.to_dict(orient="records")`. -/
def dfRecords (df : DataFrame) : List (List (String × Value)) :=
  df.rows.map (fun r => df.cols.zip r)

/-- `PostgresDestination.append`: `df.to_sql(..., if_exists="append")` —
creates the table with the TypedDataFrame's column types when absent, then
bulk-appends the rows; returns `len(df)`. -/
def PostgresDestination.appendRows (dest : PostgresDestination) (db : PgDb)
    (data : TypedDataFrame) : Nat × PgDb :=
  let records := dfRecords data.dataframe
  match dbGetTable db dest.schema dest.table_name with
  | none =>
    (data.dataframe.rows.length,
     dbSetTable db dest.schema dest.table_name
       { types := data.types, unique_constraints := [], rows := records })
  | some t =>
    (data.dataframe.rows.length,
     dbSetTable db dest.schema dest.table_name { t with rows := t.rows ++ records })

/-- `PostgresDestination.replace`: `df.to_sql(..., if_exists="replace")` —
drop-and-recreate with the new schema, then insert; returns `len(df)`. -/
def PostgresDestination.replaceRows (dest : PostgresDestination) (db : PgDb)
    (data : TypedDataFrame) : Nat × PgDb :=
  (data.dataframe.rows.length,
   dbSetTable db dest.schema dest.table_name
     { types := data.types, unique_constraints := [], rows := dfRecords data.dataframe })

/-- An incoming row conflicts with an existing row when their values agree
on every index column (the unique-constraint key). -/
def rowConflicts (index_columns : List String) (existing incoming : List (String × Value)) :
    Bool :=
  index_columns.all (fun c =>
    match dictGet existing c, dictGet incoming c with
    | some a, some b => valueBeq a b
    | _, _ => false)

/-- `ON CONFLICT DO UPDATE SET col = excluded.col` over every DataFrame
column: the existing row's values at the statement's columns are overwritten
by the incoming row's. -/
def upsertRow (cols : List String) (incoming existing : List (String × Value)) :
    List (String × Value) :=
  cols.foldl (fun row c =>
    match dictGet incoming c with
    | some v => dictInsert row c v
    | none => row) existing

/-- Executing the generated `INSERT ... ON CONFLICT` statement over the
record list, row by row against the current table contents; returns the
Postgres `rowcount` (inserted plus updated rows; `DO NOTHING` rows are not
counted) and the new table rows. -/
def executeInsertRows (index_columns cols : List String) (onConflict : OnConflict) :
    List (List (String × Value)) → List (List (String × Value)) →
    Nat × List (List (String × Value))
  | [], tableRows => (0, tableRows)
  | r :: rs, tableRows =>
    match tableRows.findIdx? (fun ex => rowConflicts index_columns ex r) with
    | some i =>
      match onConflict with
      | .update =>
        let updated := tableRows.set i (upsertRow cols r (tableRows.getD i []))
        let (n, final) := executeInsertRows index_columns cols onConflict rs updated
        (n + 1, final)
      | .nothing =>
        let (n, final) := executeInsertRows index_columns cols onConflict rs tableRows
        (n, final)
    | none =>
      let (n, final) := executeInsertRows index_columns cols onConflict rs (tableRows ++ [r])
      (n + 1, final)

/-- `PostgresDestination.insert(data, on_conflict)`: bootstrap-append when
the table does not exist; otherwise verify the unique constraint before any
write, then execute the `ON CONFLICT` insert transactionally.  An error
result leaves the database untouched. -/
def PostgresDestination.insertRows (dest : PostgresDestination) (db : PgDb)
    (data : TypedDataFrame) (on_conflict : OnConflict) :
    Except PyError (Nat × PgDb) × List LogEvent :=
  if !(dest.table_exists db) then
    -- Do append.
    (.ok (dest.appendRows db data), [])
  else
    match dest.validate_unique_constraints db with
    | (.error e, logs) => (.error e, logs)
    | (.ok _, logs) =>
      let t := (dbGetTable db dest.schema dest.table_name).getD
        { types := [], unique_constraints := [], rows := [] }
      let (count, newRows) := executeInsertRows dest.index_columns
        data.dataframe.cols on_conflict (dfRecords data.dataframe) t.rows
      (.ok (count, dbSetTable db dest.schema dest.table_name { t with rows := newRows }), logs)

/-- `PostgresDestination.save(data)`: the empty-DataFrame no-op guard, then
dispatch on the policy; on success an info line is logged.  The result is
the affected-row count (or the propagated exception), the database state
after the call, and the log lines. -/
def PostgresDestination.save (dest : PostgresDestination) (db : PgDb)
    (data : TypedDataFrame) : Except PyError Nat × PgDb × List LogEvent :=
  -- `df, _ = data` destructures the (dataframe, types) pair.
  if data.dataframe.pdEmpty then
    (.ok 0, db, [LogEvent.warning "DataFrame is empty. Skipping save to PostgreSQL."])
  else
    let finish := fun (r : Except PyError (Nat × PgDb) × List LogEvent) =>
      match r with
      | (.ok (n, db2), logs) =>
        ((.ok n : Except PyError Nat), db2,
         logs ++ [LogEvent.info ("Data saved to " ++ dest.table_name ++ " successfully!")])
      | (.error e, logs) => ((.error e : Except PyError Nat), db, logs)
    match dest.if_exists with
    | .upsert => finish (dest.insertRows db data OnConflict.update)
    | .insert_ignore => finish (dest.insertRows db data OnConflict.nothing)
    | .append => finish (.ok (dest.appendRows db data), [])
    | .replace => finish (.ok (dest.replaceRows db data), [])

/-- The insertion policies of `src/destinations/dune.py`. -/
inductive InsertionPolicy where
  | append
  | replace
  | upload_csv
  deriving DecidableEq

/-- Outcomes of the Dune API calls the destination makes during one save:
what `delete_table`, `create_table` and `insert_table` would return or
raise, and whether the existence-probe query finds the table. -/
structure DuneClientEnv where
  delete_table : Except PyError String
  create_table : Except PyError Bool
  insert_table : Except PyError Unit
  tableExists : Bool

/-- The configured state of a `DuneDestination`. -/
structure DuneDestination where
  table_name : String
  insertion_type : InsertionPolicy
  deriving DecidableEq

/-- `DuneDestination.__init__`: a table name without a namespace separator
is rejected eagerly. -/
def mkDuneDestination (table_name : String) (insertion_type : InsertionPolicy) :
    Except PyError DuneDestination :=
  match splitDot table_name.toList with
  | none => .error (.valueError "Table name must be in the format namespace.table_name")
  | some _ => .ok { table_name := table_name, insertion_type := insertion_type }

/-- `DuneDestination._insert`: optional delete (replace policy), create the
table from the TypedDataFrame's types when the probe says it is absent —
a falsy create response raises `RuntimeError("Dune Upload Failed")` — then
upload the CSV.  (The intermediate info logs are elided; the claims only
observe `save`'s catch-and-log behavior.) -/
def DuneDestination.doInsert (dest : DuneDestination) (env : DuneClientEnv)
    (_data : TypedDataFrame) : Except PyError Unit :=
  let afterDelete : Except PyError Unit :=
    if dest.insertion_type == InsertionPolicy.replace then
      match env.delete_table with
      | .error e => .error e
      | .ok _ => .ok ()
    else .ok ()
  match afterDelete with
  | .error e => .error e
  | .ok _ =>
    let afterCreate : Except PyError Unit :=
      if !env.tableExists then
        match env.create_table with
        | .error e => .error e
        | .ok true => .ok ()
        | .ok false => .error (.runtimeError "Dune Upload Failed")
      else .ok ()
    match afterCreate with
    | .error e => .error e
    | .ok _ => env.insert_table

/-- `DuneDestination.save(data)`: `DuneError`, `ValueError` and
`RuntimeError` raised during the upload are caught and logged, and
`len(data)` is returned regardless.  On the `upload_csv` policy,
`_upload_csv(data.dataframe)` dereferences `.dataframe` on a plain
DataFrame — an `AttributeError`, which none of the handlers catch. -/
def DuneDestination.save (dest : DuneDestination) (env : DuneClientEnv)
    (data : TypedDataFrame) : Except PyError (Nat × List LogEvent) :=
  let attempt : Except PyError Unit :=
    if dest.insertion_type == InsertionPolicy.upload_csv then
      .error (.attributeError "DataFrame object has no attribute dataframe")
    else dest.doInsert env data
  match attempt with
  | .ok _ => .ok (data.len, [])
  | .error (.duneError m) =>
    .ok (data.len, [LogEvent.error ("Dune did not accept our upload: " ++ m)])
  | .error (.valueError m) =>
    .ok (data.len, [LogEvent.error ("Data processing error: " ++ m)])
  | .error (.runtimeError m) =>
    .ok (data.len, [LogEvent.error ("Data processing error: " ++ m)])
  | .error e => .error e

/-!
Theorems.  Each claim theorem is stated over the embedded definitions above;
concrete evaluation theorems are proved by kernel reduction.
-/

/-- C1: the spec asserts that resolving `decimal(P,S)` yields a decimal
column type carrying exactly (P, S) for every precision P ≥ 1 and scale
S ≥ 0.  The code contradicts this at scale 0 (the example of its own
docstring, `decimal(38, 0)`): the regex parse succeeds with (38, 0), but
the Python truthiness check `if precision and scale:` treats the scale 0 as
a parse failure, logs the parse error, and the column falls through to the
unknown-type branch — resolving to JSONB (opaque), not to a numeric type. -/
theorem decimal_truthiness_check_sends_scale_zero_to_jsonb :
    parse_decimal_type "decimal(38, 0)" = some (38, 0) ∧
    handle_column_types DUNE_TO_PG "amount" "decimal(38, 0)" =
      (PgType.JSONB, [], ["amount"], DUNE_TO_PG,
       [LogEvent.error "Failed to parse precision and scale from Dune result: amount",
        LogEvent.warning "Unknown column: decimal(38, 0) - treating as JSONB"]) :=
  ⟨rfl, rfl⟩

/-- C2 counterexample: the claim says constructing with policy `insert_ignore`
and an empty index-column list fails at construction; here is a concrete
construction (schema `public` exists) that succeeds — `validate` only guards
the `upsert` policy. -/
theorem insert_ignore_empty_index_constructs_ok :
    mkPostgresDestination ⟨["public"], []⟩ "foo" TableExistsPolicy.insert_ignore (some []) =
      .ok ⟨"public", "foo", TableExistsPolicy.insert_ignore, []⟩ :=
  rfl

/-- C2 amended: constructing with policy `upsert` and an empty index-column
list fails at construction for every database state; constructing with
policy `append` and no index columns succeeds whenever the destination
schema exists.  (`insert_ignore` with empty index columns is NOT rejected
at construction — see the counterexample.) -/
theorem constructor_policy_validation (db : PgDb) (table_name : String) :
    mkPostgresDestination db table_name TableExistsPolicy.upsert (some []) =
      .error (.valueError "Config for PostgresDestination is invalid. See ERROR log for details.") ∧
    ((splitTableName table_name).1 ∈ db.schemas →
      ∃ d, mkPostgresDestination db table_name TableExistsPolicy.append none = .ok d) := by
  constructor
  · unfold mkPostgresDestination PostgresDestination.validate
    by_cases hc : (splitTableName table_name).1 ∈ db.schemas <;> simp [hc]
  · intro hs
    exact ⟨⟨(splitTableName table_name).1, (splitTableName table_name).2,
            TableExistsPolicy.append, []⟩,
      by unfold mkPostgresDestination PostgresDestination.validate; simp [hs]⟩

/-- C2 witness: the amended statement at the concrete database with only the
`public` schema and table name `foo`. -/
theorem constructor_policy_validation_witness :
    mkPostgresDestination ⟨["public"], []⟩ "foo" TableExistsPolicy.upsert (some []) =
      .error (.valueError "Config for PostgresDestination is invalid. See ERROR log for details.") ∧
    ∃ d, mkPostgresDestination ⟨["public"], []⟩ "foo" TableExistsPolicy.append none = .ok d :=
  ⟨(constructor_policy_validation ⟨["public"], []⟩ "foo").1,
   (constructor_policy_validation ⟨["public"], []⟩ "foo").2 (by decide)⟩

/-- C3: type resolution is total — the embedding is a total function, and no
operation of `_handle_column_types` can raise (`int` is applied only to
`\d+` groups, all dict operations are non-throwing) — and any type string
matching neither the decimal nor the varchar pattern nor a registry entry
resolves to JSONB, logs the unknown-column warning, and is recorded in the
unknown-columns list that feeds the materializer's JSON-serialization step.
Stated over an arbitrary registry state, so it also covers registries grown
by earlier cached parametrized instantiations. -/
theorem unknown_type_string_resolves_to_jsonb (reg : Registry) (name d_type : String)
    (hdec : parse_decimal_type d_type = none)
    (hvar : parse_varchar_type d_type = none)
    (hreg : dictGet reg d_type = none) :
    handle_column_types reg name d_type =
      (PgType.JSONB, (if d_type == "varbinary" then [name] else []), [name], reg,
       [LogEvent.warning ("Unknown column: " ++ d_type ++ " - treating as JSONB")]) := by
  unfold handle_column_types
  simp [hdec, hvar, hreg]

/-- C3 witness: the unrecognized type string `map(varchar,integer)` against
the initial registry. -/
theorem unknown_type_string_resolves_to_jsonb_witness :
    handle_column_types DUNE_TO_PG "c" "map(varchar,integer)" =
      (PgType.JSONB, [], ["c"], DUNE_TO_PG,
       [LogEvent.warning "Unknown column: map(varchar,integer) - treating as JSONB"]) := by
  have h := unknown_type_string_resolves_to_jsonb DUNE_TO_PG "c" "map(varchar,integer)"
    (by rfl) (by rfl) (by rfl)
  simpa using h

/-- C5: saving a TypedDataFrame with zero rows is a no-op for every policy
and every database state: it returns 0, logs the warning, and leaves the
database exactly as it was (no table created or dropped), without raising. -/
theorem save_empty_dataframe_is_noop (dest : PostgresDestination) (db : PgDb)
    (data : TypedDataFrame) (h : data.dataframe.rows = []) :
    PostgresDestination.save dest db data =
      (.ok 0, db, [LogEvent.warning "DataFrame is empty. Skipping save to PostgreSQL."]) := by
  unfold PostgresDestination.save
  simp [DataFrame.pdEmpty, h]

/-- C5 witness: an empty one-column TypedDataFrame saved under the `upsert`
policy. -/
theorem save_empty_dataframe_is_noop_witness :
    PostgresDestination.save ⟨"public", "t", TableExistsPolicy.upsert, ["id"]⟩
      ⟨["public"], []⟩ ⟨⟨["x"], []⟩, [("x", PgType.BIGINT)]⟩ =
      (.ok 0, ⟨["public"], []⟩,
       [LogEvent.warning "DataFrame is empty. Skipping save to PostgreSQL."]) :=
  save_empty_dataframe_is_noop _ _ _ rfl

/-- C6: the claim says materializing a raw result with zero rows succeeds for
every list of declared column types, including binary ones.  It does not:
with zero rows `pd.DataFrame(result.rows)` has no columns at all, so the
varbinary reformatting step `df[col]` raises `KeyError` for a declared
varbinary column (first conjunct).  With no binary/unknown columns the
zero-row case does produce an empty TypedDataFrame whose type map is derived
from the declared types (second conjunct), which is the intended behavior
the spec describes. -/
theorem materialize_zero_rows_with_varbinary_column_raises :
    dune_result_to_df DUNE_TO_PG ⟨⟨["tx"], ["varbinary"]⟩, []⟩ = .error (.keyError "tx") ∧
    dune_result_to_df DUNE_TO_PG ⟨⟨["id"], ["bigint"]⟩, []⟩ =
      .ok (⟨⟨[], []⟩, [("id", PgType.BIGINT)]⟩, DUNE_TO_PG, []) :=
  ⟨rfl, rfl⟩

/-- C7 counterexample: the claim says null cells of an opaque column pass
through unchanged.  They do not: `_reformat_unknown_columns` applies
`json.dumps` to every cell, so a `None` cell becomes the four-character
JSON text `null` — a string cell, no longer a null. -/
theorem unknown_column_null_cell_becomes_json_text :
    reformat_unknown_columns ⟨["A"], [[Value.null]]⟩ ["A"] =
      .ok ⟨["A"], [[Value.str "null"]]⟩ ∧ Value.str "null" ≠ Value.null :=
  ⟨rfl, fun h => Value.noConfusion h⟩

/-- C9: the claim's first half holds — a terminal execution whose result is
absent makes `fetch` raise the hard failure
`ValueError("Query execution failed!")` (the spec's QueryExecutionError).
Its second half fails: a terminal execution with zero rows and a declared
varbinary column does not yield a valid empty TabularValue but raises
`KeyError` out of the materializer (the zero-row DataFrame has no columns). -/
theorem resultless_fetch_raises_and_zero_row_varbinary_fetch_raises :
    DuneSource.fetch DUNE_TO_PG none = .error (.valueError "Query execution failed!") ∧
    DuneSource.fetch DUNE_TO_PG (some ⟨⟨["h"], ["varbinary"]⟩, []⟩) =
      .error (.keyError "h") :=
  ⟨rfl, rfl⟩

/-- C8: the claim says the Dune destination's save does not swallow upload
failures and report a nonzero affected-row count.  It does: here the
insert-table upload raises `DuneError("Bad Request")` (first conjunct), yet
`save` catches it, logs it, and returns the full row count 1 (second
conjunct) — contradicting both the claim and the method's own docstring,
which documents these exceptions as raised. -/
theorem dune_save_swallows_upload_failure :
    DuneDestination.doInsert
      { table_name := "ns.table1", insertion_type := InsertionPolicy.append }
      { delete_table := .ok "", create_table := .ok true,
        insert_table := .error (.duneError "Bad Request"), tableExists := true }
      { dataframe := ⟨["foo"], [[.str "bar"]]⟩, types := [] } =
      .error (.duneError "Bad Request") ∧
    DuneDestination.save
      { table_name := "ns.table1", insertion_type := InsertionPolicy.append }
      { delete_table := .ok "", create_table := .ok true,
        insert_table := .error (.duneError "Bad Request"), tableExists := true }
      { dataframe := ⟨["foo"], [[.str "bar"]]⟩, types := [] } =
      .ok (1, [LogEvent.error "Dune did not accept our upload: Bad Request"]) :=
  ⟨rfl, rfl⟩

/-- Helper: a successful `mapRowsAt` relates input and output rows pointwise —
each output row is the input row with the cell at the given column index
replaced by the (successful) result of the cell function. -/
theorem mapRowsAt_ok_forall2 {j : Nat} {f : Value → Except PyError Value} :
    ∀ {rows rows' : List (List Value)}, mapRowsAt j f rows = .ok rows' →
      List.Forall₂ (fun r r' => ∃ v, f (r.getD j Value.nan) = .ok v ∧ r' = r.set j v)
        rows rows' := by
  intro rows
  induction rows with
  | nil =>
    intro rows' h
    unfold mapRowsAt at h
    injection h with h'
    subst h'
    constructor
  | cons r rs ih =>
    intro rows' h
    unfold mapRowsAt at h
    cases hf : f (r.getD j Value.nan) with
    | error e => rw [hf] at h; cases h
    | ok v =>
      rw [hf] at h
      cases hm : mapRowsAt j f rs with
      | error e => rw [hm] at h; cases h
      | ok rest =>
        rw [hm] at h
        injection h with h'
        subst h'
        exact List.Forall₂.cons ⟨v, hf, rfl⟩ (ih hm)

/-- C7 amended: for an opaque (unknown-typed) column, the materializer passes
every cell — null or not — through `json.dumps` and stores the resulting
JSON text as a string cell.  Non-null serializable cells become their JSON
serialization; null cells do NOT pass through unchanged (they become the
JSON text `null`; see the counterexample theorem). -/
theorem unknown_column_cells_all_serialized (df : DataFrame) (col : String) (j : Nat)
    (df' : DataFrame)
    (hj : df.cols.findIdx? (fun c => c == col) = some j)
    (h : reformat_unknown_columns df [col] = .ok df') :
    df'.cols = df.cols ∧
    List.Forall₂ (fun r r' => ∃ s, jsonDumps (r.getD j Value.nan) = .ok s ∧
      r' = r.set j (Value.str s)) df.rows df'.rows := by
  unfold reformat_unknown_columns at h
  cases ha : applyColumn df col jsonDumpsCell with
  | error e => rw [ha] at h; cases h
  | ok df2 =>
    rw [ha] at h
    unfold reformat_unknown_columns at h
    injection h with h'
    subst h'
    unfold applyColumn at ha
    rw [hj] at ha
    have ha2 : (match mapRowsAt j jsonDumpsCell df.rows with
        | Except.error e => (Except.error e : Except PyError DataFrame)
        | Except.ok rows2 => Except.ok { cols := df.cols, rows := rows2 }) =
        Except.ok df2 := ha
    clear ha
    cases hm : mapRowsAt j jsonDumpsCell df.rows with
    | error e => rw [hm] at ha2; cases ha2
    | ok rows2 =>
      rw [hm] at ha2
      injection ha2 with ha'
      subst ha'
      refine ⟨rfl, ?_⟩
      refine (mapRowsAt_ok_forall2 hm).imp ?_
      intro r r' hrr
      obtain ⟨v, hv, hr⟩ := hrr
      unfold jsonDumpsCell at hv
      cases hd : jsonDumps (r.getD j Value.nan) with
      | error e => rw [hd] at hv; cases hv
      | ok s =>
        rw [hd] at hv
        injection hv with hv'
        exact ⟨s, rfl, by rw [hr, ← hv']⟩

/-- C7 witness: the amended statement on a one-column DataFrame holding a
null cell and a string cell. -/
theorem unknown_column_cells_all_serialized_witness :
    (⟨["A"], [[Value.str "null"], [Value.str "\"x\""]]⟩ : DataFrame).cols =
      (⟨["A"], [[Value.null], [Value.str "x"]]⟩ : DataFrame).cols ∧
    List.Forall₂ (fun r r' => ∃ s, jsonDumps (r.getD 0 Value.nan) = .ok s ∧
      r' = r.set 0 (Value.str s))
      [[Value.null], [Value.str "x"]] [[Value.str "null"], [Value.str "\"x\""]] :=
  unknown_column_cells_all_serialized ⟨["A"], [[Value.null], [Value.str "x"]]⟩ "A" 0
    ⟨["A"], [[Value.str "null"], [Value.str "\"x\""]]⟩ rfl rfl

/-- C4: saving a non-empty TypedDataFrame under the `upsert` or
`insert_ignore` policy against an existing target table whose unique
constraints none matches the configured index columns exactly fails closed:
the save returns the descriptive `ValueError` before any write (the
database state is returned unchanged), and the logged message ends in the
remediation DDL statement the operator should run. -/
theorem conflict_policy_requires_matching_unique_constraint
    (dest : PostgresDestination) (db : PgDb) (data : TypedDataFrame)
    (hpol : dest.if_exists = TableExistsPolicy.upsert ∨
            dest.if_exists = TableExistsPolicy.insert_ignore)
    (hne : data.dataframe.pdEmpty = false)
    (hex : dest.table_exists db = true)
    (hcon : ∀ c ∈ (((dbGetTable db dest.schema dest.table_name).map
        (fun t => t.unique_constraints)).getD []),
      listSetEq dest.index_columns c = false) :
    PostgresDestination.save dest db data =
      (.error (.valueError "No unique or exclusion constraint found. See error logs."), db,
       [LogEvent.error (uniqueConstraintMessage dest)]) ∧
    ∃ s, uniqueConstraintMessage dest = s ++ constraintSuggestion dest := by
  have hany : (((dbGetTable db dest.schema dest.table_name).map
      (fun t => t.unique_constraints)).getD []).any
        (fun c => listSetEq dest.index_columns c) = false := by
    rw [List.any_eq_false]
    intro c hc
    simp [hcon c hc]
  refine ⟨?_, ⟨_, rfl⟩⟩
  rcases hpol with h | h <;>
    simp [PostgresDestination.save, hne, h, PostgresDestination.insertRows, hex,
          PostgresDestination.validate_unique_constraints, hany]

/-- C4 witness: a one-row upsert against an existing table whose only unique
constraint covers a different column. -/
theorem conflict_policy_requires_matching_unique_constraint_witness :
    PostgresDestination.save ⟨"public", "t", TableExistsPolicy.upsert, ["id"]⟩
      ⟨["public"], [(("public", "t"), ⟨[("id", PgType.BIGINT)], [["other"]], []⟩)]⟩
      ⟨⟨["id"], [[Value.int 1]]⟩, [("id", PgType.BIGINT)]⟩ =
      (.error (.valueError "No unique or exclusion constraint found. See error logs."),
       ⟨["public"], [(("public", "t"), ⟨[("id", PgType.BIGINT)], [["other"]], []⟩)]⟩,
       [LogEvent.error (uniqueConstraintMessage
          ⟨"public", "t", TableExistsPolicy.upsert, ["id"]⟩)]) ∧
    ∃ s, uniqueConstraintMessage ⟨"public", "t", TableExistsPolicy.upsert, ["id"]⟩ =
      s ++ constraintSuggestion ⟨"public", "t", TableExistsPolicy.upsert, ["id"]⟩ :=
  conflict_policy_requires_matching_unique_constraint
    ⟨"public", "t", TableExistsPolicy.upsert, ["id"]⟩
    ⟨["public"], [(("public", "t"), ⟨[("id", PgType.BIGINT)], [["other"]], []⟩)]⟩
    ⟨⟨["id"], [[Value.int 1]]⟩, [("id", PgType.BIGINT)]⟩
    (Or.inl rfl) rfl rfl (by decide)

/-- C10: saving a non-empty TypedDataFrame under `upsert` or `insert_ignore`
when the target table does not exist degrades to append semantics: the call
behaves exactly like the `append` policy — the table is created from the
TypedDataFrame's column types, all rows are inserted, the full row count is
returned — and no uniqueness-constraint check is performed (the save
succeeds although no constraint exists). -/
theorem missing_table_conflict_policy_degrades_to_append
    (dest : PostgresDestination) (db : PgDb) (data : TypedDataFrame)
    (hpol : dest.if_exists = TableExistsPolicy.upsert ∨
            dest.if_exists = TableExistsPolicy.insert_ignore)
    (hne : data.dataframe.pdEmpty = false)
    (hnex : dest.table_exists db = false) :
    PostgresDestination.save dest db data =
      PostgresDestination.save { dest with if_exists := TableExistsPolicy.append } db data ∧
    PostgresDestination.save dest db data =
      (.ok data.dataframe.rows.length,
       dbSetTable db dest.schema dest.table_name
         { types := data.types, unique_constraints := [], rows := dfRecords data.dataframe },
       [LogEvent.info ("Data saved to " ++ dest.table_name ++ " successfully!")]) := by
  have hget : dbGetTable db dest.schema dest.table_name = none := by
    unfold PostgresDestination.table_exists at hnex
    exact Option.not_isSome_iff_eq_none.mp (by simp [hnex])
  rcases hpol with h | h <;>
    exact ⟨by simp [PostgresDestination.save, hne, h, PostgresDestination.insertRows, hnex,
                    PostgresDestination.table_exists, PostgresDestination.appendRows, hget],
           by simp [PostgresDestination.save, hne, h, PostgresDestination.insertRows, hnex,
                    PostgresDestination.appendRows, hget]⟩

/-- C10 witness: a one-row insert-ignore save against a database without the
target table. -/
theorem missing_table_conflict_policy_degrades_to_append_witness :
    PostgresDestination.save ⟨"public", "t", TableExistsPolicy.insert_ignore, ["id"]⟩
      ⟨["public"], []⟩ ⟨⟨["id"], [[Value.int 1]]⟩, [("id", PgType.BIGINT)]⟩ =
      PostgresDestination.save ⟨"public", "t", TableExistsPolicy.append, ["id"]⟩
        ⟨["public"], []⟩ ⟨⟨["id"], [[Value.int 1]]⟩, [("id", PgType.BIGINT)]⟩ ∧
    PostgresDestination.save ⟨"public", "t", TableExistsPolicy.insert_ignore, ["id"]⟩
      ⟨["public"], []⟩ ⟨⟨["id"], [[Value.int 1]]⟩, [("id", PgType.BIGINT)]⟩ =
      (.ok 1,
       dbSetTable ⟨["public"], []⟩ "public" "t"
         { types := [("id", PgType.BIGINT)], unique_constraints := [],
           rows := [[("id", Value.int 1)]] },
       [LogEvent.info "Data saved to t successfully!"]) :=
  missing_table_conflict_policy_degrades_to_append
    ⟨"public", "t", TableExistsPolicy.insert_ignore, ["id"]⟩
    ⟨["public"], []⟩ ⟨⟨["id"], [[Value.int 1]]⟩, [("id", PgType.BIGINT)]⟩
    (Or.inr rfl) rfl rfl
